import Mathlib

/-!
Verification of the Card Reconciliation Tool.

A shallow embedding of the reconciliation engine and of its collaborators
in `src/app.py` (email alerting, batch orchestration) and
`src/root_cause_analysis.py` (root-cause-analysis prompt construction),
with theorems settling the stated properties of the system.
-/

namespace CardReco

/-! ## Core matcher and aggregator

The reconciliation engine itself (`run_rate_analysis` and the modules
behind it) is not part of the provided sources; the definitions in this
section are modelled from the specification (§4.3, §4.4, §8).
-/

/-- Classification of one line comparison. -/
inductive DiffStatus
  | matched
  | higher
  | lower
  | missing
deriving DecidableEq, Repr

/-- Percentage difference of one paired line: a finite value, or the
unbounded sentinel used when the invoice denominator is zero but the
calculated amount is not. -/
inductive PctDiff
  | finite (d : ℚ)
  | posInf
  | negInf
deriving DecidableEq, Repr

/-- Modelled from the spec: the fixed classification tolerance (1.0%);
the matcher implementation is not under src/. -/
def TOLERANCE : ℚ := 1

/-- Modelled from the spec: percentage difference of a paired line
(§4.3 step 2 together with the zero-handling rule of §8); the matcher
implementation is not under src/. -/
def percentageDiff (finalAmount visaAmount : ℚ) : PctDiff :=
  if visaAmount ≠ 0 then
    PctDiff.finite ((finalAmount - visaAmount) / visaAmount * 100)
  else if finalAmount = 0 then
    PctDiff.finite 0
  else if 0 < finalAmount then
    PctDiff.posInf
  else
    PctDiff.negInf

/-- Modelled from the spec: the tolerance-based classification rule of
§4.3 step 3 (the sentinel cases are the maximal-deviation cases); the
matcher implementation is not under src/. -/
def statusOfDiff (d : PctDiff) : DiffStatus :=
  match d with
  | PctDiff.finite d =>
      if |d| ≤ TOLERANCE then DiffStatus.matched
      else if TOLERANCE < d then DiffStatus.higher
      else DiffStatus.lower
  | PctDiff.posInf => DiffStatus.higher
  | PctDiff.negInf => DiffStatus.lower

/-- One calculated fee entry (spec §3, FeeLine; `final_amount` is the
amount after FX conversion). -/
structure FeeLine where
  fee_type : String
  rate_chart : String
  calculation_method : String
  final_amount : ℚ
  exchange_rate : Option ℚ
deriving DecidableEq, Repr

/-- One externally reported invoice entry (spec §3, InvoiceLine). -/
structure InvoiceLine where
  fee_type : String
  rate_chart : String
  visa_amount : ℚ
deriving DecidableEq, Repr

/-- Outcome of comparing one FeeLine against its invoice counterpart
(spec §3, MatchResult). -/
structure MatchResult where
  fee_type : String
  rate_chart : String
  calculation_method : String
  final_amount : ℚ
  visa_amount : Option ℚ
  exchange_rate : Option ℚ
  percentage_diff : Option PctDiff
  diff_status : DiffStatus
deriving DecidableEq, Repr

/-- Modelled from the spec: invoice lookup by the composite
`(fee_type, rate_chart)` key (§4.3 step 1); the matcher implementation
is not under src/. -/
def lookupInvoice (invoice : List InvoiceLine) (ft rc : String) :
    Option InvoiceLine :=
  invoice.find? (fun il => il.fee_type == ft && il.rate_chart == rc)

/-- Modelled from the spec: construction of one MatchResult for a single
FeeLine (§4.3 step 2); the matcher implementation is not under src/. -/
def matchOne (invoice : List InvoiceLine) (fl : FeeLine) : MatchResult :=
  match lookupInvoice invoice fl.fee_type fl.rate_chart with
  | none =>
      { fee_type := fl.fee_type
        rate_chart := fl.rate_chart
        calculation_method := fl.calculation_method
        final_amount := fl.final_amount
        visa_amount := none
        exchange_rate := fl.exchange_rate
        percentage_diff := none
        diff_status := DiffStatus.missing }
  | some il =>
      let d := percentageDiff fl.final_amount il.visa_amount
      { fee_type := fl.fee_type
        rate_chart := fl.rate_chart
        calculation_method := fl.calculation_method
        final_amount := fl.final_amount
        visa_amount := some il.visa_amount
        exchange_rate := fl.exchange_rate
        percentage_diff := some d
        diff_status := statusOfDiff d }

/-- Modelled from the spec: the matcher maps every FeeLine to exactly one
MatchResult (§4.3); the matcher implementation is not under src/. -/
def matchLines (fee_lines : List FeeLine) (invoice_lines : List InvoiceLine) :
    List MatchResult :=
  fee_lines.map (matchOne invoice_lines)

/-- Modelled from the spec: the aggregate amount-reconciled percentage
with its clamping into [0, 100] (§4.4); the aggregator implementation is
not under src/. -/
def amountReconciledPercentage (epsilon total_final total_visa : ℚ) : ℚ :=
  max 0 (min 100 (100 * (1 - |total_final - total_visa| / max total_visa epsilon)))

/-- Modelled from the spec: total calculated amount over all match
results (§4.4); the aggregator implementation is not under src/. -/
def totalFinalAmount (rs : List MatchResult) : ℚ :=
  (rs.map (fun r => r.final_amount)).sum

/-- Modelled from the spec: total invoiced amount over all match results,
missing lines contributing 0 (§4.4); the aggregator implementation is not
under src/. -/
def totalVisaAmount (rs : List MatchResult) : ℚ :=
  (rs.map (fun r => r.visa_amount.getD 0)).sum

/-- Each classification value occurs exactly once in the enumeration of
the four possible statuses. -/
lemma count_statuses (s : DiffStatus) :
    ([DiffStatus.matched, DiffStatus.higher, DiffStatus.lower,
      DiffStatus.missing].count s) = 1 := by
  cases s <;> rfl

/-- The classification rule never yields `missing`. -/
lemma statusOfDiff_ne_missing (d : PctDiff) :
    statusOfDiff d ≠ DiffStatus.missing := by
  cases d with
  | finite d =>
      simp only [statusOfDiff]
      split
      · simp
      · split <;> simp
  | posInf => simp [statusOfDiff]
  | negInf => simp [statusOfDiff]

/-- C2: every MatchResult produced by the matcher carries exactly one of
the four statuses; the status is `missing` iff `visa_amount` is absent;
and when `visa_amount` is present both the stored percentage difference
and the status are the pure tolerance-based function of the two
amounts. -/
theorem matchResult_status_invariant
    (fee_lines : List FeeLine) (invoice_lines : List InvoiceLine)
    (r : MatchResult) (hr : r ∈ matchLines fee_lines invoice_lines) :
    ([DiffStatus.matched, DiffStatus.higher, DiffStatus.lower,
      DiffStatus.missing].count r.diff_status = 1) ∧
    (r.diff_status = DiffStatus.missing ↔ r.visa_amount = none) ∧
    (∀ v, r.visa_amount = some v →
      r.percentage_diff = some (percentageDiff r.final_amount v) ∧
      r.diff_status = statusOfDiff (percentageDiff r.final_amount v)) := by
  simp only [matchLines, List.mem_map] at hr
  obtain ⟨fl, _, rfl⟩ := hr
  unfold matchOne
  cases h : lookupInvoice invoice_lines fl.fee_type fl.rate_chart with
  | none =>
      refine ⟨count_statuses _, by simp, ?_⟩
      intro v hv
      simp at hv
  | some il =>
      refine ⟨count_statuses _, ?_, ?_⟩
      · simp [statusOfDiff_ne_missing]
      · intro v hv
        simp only [Option.some.injEq] at hv
        subst hv
        exact ⟨rfl, rfl⟩

/-- Witness for C2 at a concrete matcher run. -/
theorem matchResult_status_invariant_witness :
    ([DiffStatus.matched, DiffStatus.higher, DiffStatus.lower,
      DiffStatus.missing].count
        (matchOne [⟨"A", "X", 99⟩] ⟨"A", "X", "flat", 100, none⟩).diff_status
        = 1) ∧
    ((matchOne [⟨"A", "X", 99⟩] ⟨"A", "X", "flat", 100, none⟩).diff_status
        = DiffStatus.missing ↔
      (matchOne [⟨"A", "X", 99⟩] ⟨"A", "X", "flat", 100, none⟩).visa_amount
        = none) ∧
    (∀ v,
      (matchOne [⟨"A", "X", 99⟩] ⟨"A", "X", "flat", 100, none⟩).visa_amount
          = some v →
      (matchOne [⟨"A", "X", 99⟩] ⟨"A", "X", "flat", 100, none⟩).percentage_diff
          = some (percentageDiff
              (matchOne [⟨"A", "X", 99⟩] ⟨"A", "X", "flat", 100, none⟩).final_amount v) ∧
      (matchOne [⟨"A", "X", 99⟩] ⟨"A", "X", "flat", 100, none⟩).diff_status
          = statusOfDiff (percentageDiff
              (matchOne [⟨"A", "X", 99⟩] ⟨"A", "X", "flat", 100, none⟩).final_amount v)) :=
  matchResult_status_invariant [⟨"A", "X", "flat", 100, none⟩] [⟨"A", "X", 99⟩] _
    (by simp [matchLines])

/-- C3: for a paired line with nonzero invoice amount the percentage
difference is `(final − visa) / visa × 100`, classified `matched` within
the 1.0% tolerance, `higher` above it, `lower` below it; concretely,
`final_amount = 100` against `visa_amount = 99.00` is `higher` while
against `visa_amount = 99.01` it is `matched`. -/
theorem pairedLine_classification (f v : ℚ) (hv : v ≠ 0) :
    (percentageDiff f v = PctDiff.finite ((f - v) / v * 100)) ∧
    (|(f - v) / v * 100| ≤ 1 →
      statusOfDiff (percentageDiff f v) = DiffStatus.matched) ∧
    (1 < (f - v) / v * 100 →
      statusOfDiff (percentageDiff f v) = DiffStatus.higher) ∧
    ((f - v) / v * 100 < -1 →
      statusOfDiff (percentageDiff f v) = DiffStatus.lower) ∧
    ((matchOne [⟨"A", "X", 99⟩] ⟨"A", "X", "flat", 100, none⟩).diff_status
        = DiffStatus.higher) ∧
    ((matchOne [⟨"A", "X", 9901/100⟩] ⟨"A", "X", "flat", 100, none⟩).diff_status
        = DiffStatus.matched) := by
  have hpd : percentageDiff f v = PctDiff.finite ((f - v) / v * 100) := by
    simp [percentageDiff, hv]
  have hhigher : (matchOne [⟨"A", "X", 99⟩]
      ⟨"A", "X", "flat", 100, none⟩).diff_status = DiffStatus.higher := by
    have hm : (matchOne [⟨"A", "X", 99⟩]
        ⟨"A", "X", "flat", 100, none⟩).diff_status
          = statusOfDiff (percentageDiff 100 99) := by
      simp [matchOne, lookupInvoice]
    rw [hm]
    have h99 : percentageDiff 100 99 = PctDiff.finite ((100 - 99) / 99 * 100) := by
      simp [percentageDiff]
    rw [h99]
    have h2 : ((100 : ℚ) - 99) / 99 * 100 = 100 / 99 := by norm_num
    rw [h2]
    have h3 : ¬ |(100 : ℚ) / 99| ≤ TOLERANCE := by
      rw [abs_of_pos (by norm_num), TOLERANCE]
      norm_num
    have h4 : TOLERANCE < (100 : ℚ) / 99 := by rw [TOLERANCE]; norm_num
    simp [statusOfDiff, h3, h4]
  have hmatched : (matchOne [⟨"A", "X", 9901/100⟩]
      ⟨"A", "X", "flat", 100, none⟩).diff_status = DiffStatus.matched := by
    have hm : (matchOne [⟨"A", "X", 9901/100⟩]
        ⟨"A", "X", "flat", 100, none⟩).diff_status
          = statusOfDiff (percentageDiff 100 (9901/100)) := by
      simp [matchOne, lookupInvoice]
    rw [hm]
    have h99 : percentageDiff 100 (9901/100)
        = PctDiff.finite ((100 - 9901/100) / (9901/100) * 100) := by
      simp [percentageDiff]
    rw [h99]
    have h3 : |((100 : ℚ) - 9901/100) / (9901/100) * 100| ≤ TOLERANCE := by
      rw [TOLERANCE, abs_le]
      constructor <;> norm_num
    simp [statusOfDiff, h3]
  refine ⟨hpd, ?_, ?_, ?_, hhigher, hmatched⟩
  · intro h
    simp [hpd, statusOfDiff, TOLERANCE, h]
  · intro h
    have habs : ¬ |(f - v) / v * 100| ≤ 1 := by
      rw [abs_le]
      push_neg
      intro h2
      linarith
    simp [hpd, statusOfDiff, TOLERANCE, habs, h]
  · intro h
    have habs : ¬ |(f - v) / v * 100| ≤ 1 := by
      rw [abs_le]
      push_neg
      exact fun h2 => absurd h (by linarith)
    have hlt : ¬ (1 : ℚ) < (f - v) / v * 100 := by linarith
    simp [hpd, statusOfDiff, TOLERANCE, habs, hlt]

/-- Witness for C3 at the concrete tolerance-boundary inputs. -/
theorem pairedLine_classification_witness :
    (percentageDiff 100 99 = PctDiff.finite ((100 - 99) / 99 * 100)) ∧
    (|((100 : ℚ) - 99) / 99 * 100| ≤ 1 →
      statusOfDiff (percentageDiff 100 99) = DiffStatus.matched) ∧
    (1 < ((100 : ℚ) - 99) / 99 * 100 →
      statusOfDiff (percentageDiff 100 99) = DiffStatus.higher) ∧
    (((100 : ℚ) - 99) / 99 * 100 < -1 →
      statusOfDiff (percentageDiff 100 99) = DiffStatus.lower) ∧
    ((matchOne [⟨"A", "X", 99⟩] ⟨"A", "X", "flat", 100, none⟩).diff_status
        = DiffStatus.higher) ∧
    ((matchOne [⟨"A", "X", 9901/100⟩] ⟨"A", "X", "flat", 100, none⟩).diff_status
        = DiffStatus.matched) :=
  pairedLine_classification 100 99 (by norm_num)

/-- C4: the aggregate amount-reconciled percentage equals the clamped
spec formula and always lies within [0, 100], for every pair of totals
(including a zero invoice total) and every epsilon. -/
theorem amountReconciled_clamped (epsilon total_final total_visa : ℚ) :
    amountReconciledPercentage epsilon total_final total_visa =
      max 0 (min 100
        (100 * (1 - |total_final - total_visa| / max total_visa epsilon))) ∧
    0 ≤ amountReconciledPercentage epsilon total_final total_visa ∧
    amountReconciledPercentage epsilon total_final total_visa ≤ 100 := by
  refine ⟨rfl, le_max_left _ _, ?_⟩
  unfold amountReconciledPercentage
  exact max_le (by norm_num) (min_le_left _ _)

/-! ## Email alerting (src/app.py, `send_reconciliation_alert`) -/

/-- `send_reconciliation_alert` (src/app.py lines 68-149). The function
body is one big try/except that turns every raised exception into the
return value `False`: `enabled` is `EMAIL_ENABLED`, `lookupAmount` the
fallible read of `report["summary"]["amount_reconciled_percentage"]`
(a malformed report dictionary raises, modelled as `Except.error`), and
`smtpSend` the fallible SMTP connect/login/send. -/
def sendReconciliationAlert (enabled : Bool)
    (lookupAmount : Except String ℚ) (smtpSend : Except String Unit) : Bool :=
  if !enabled then
    false
  else
    match lookupAmount with
    | Except.error _ => false
    | Except.ok amount_reconciled =>
      if 95 ≤ amount_reconciled then
        false
      else
        match smtpSend with
        | Except.error _ => false
        | Except.ok _ => true

/-- The two-decimal display rounding used when formatting the percentage
for the alert subject and the report displays (src/app.py line 94),
modelled as round-half-up at two decimal places on exact rationals. -/
def roundTo2 (q : ℚ) : ℚ := (⌊q * 100 + 1/2⌋ : ℤ) / 100

/-- C1: with alerting enabled and a deliverable message, the alert fires
exactly when the unrounded percentage is strictly below 95; in
particular 94.995, whose two-decimal display is 95.00, still fires. -/
theorem alert_fires_iff_below_95 :
    (∀ amount : ℚ,
      sendReconciliationAlert true (Except.ok amount) (Except.ok ()) = true ↔
        amount < 95) ∧
    sendReconciliationAlert true (Except.ok (18999/200)) (Except.ok ()) = true ∧
    roundTo2 (18999/200) = 95 := by
  refine ⟨?_, ?_, ?_⟩
  · intro amount
    unfold sendReconciliationAlert
    by_cases h : 95 ≤ amount
    · simp [h, not_lt.mpr h]
    · simp [h, lt_of_not_le h]
  · norm_num [sendReconciliationAlert]
  · have h : (18999 : ℚ)/200 * 100 + 1/2 = ((9500 : ℤ) : ℚ) := by norm_num
    rw [roundTo2, h, Int.floor_intCast]
    norm_num

/-! ## Batch orchestration (src/app.py) -/

/-- The reconciliation summary as read by src/app.py: the numeric
`amount_reconciled_percentage` and its display string. -/
structure Summary where
  amount_reconciled_percentage : ℚ
  amount_reconciled_display : String
deriving DecidableEq, Repr

/-- The report value exchanged with the collaborators, as read by
src/app.py: an optional summary section (`report.get("summary")`) and
the warnings list (`report.get('warnings')`). -/
structure Report where
  summary : Option Summary
  warnings : List String
deriving DecidableEq, Repr

/-- A transaction folder after file mapping (`map_files_in_folder`,
src/app.py lines 176-223): its name and whether a summary workbook was
found, i.e. whether `file_paths['summary']` is non-None. -/
structure Folder where
  name : String
  hasSummaryFile : Bool
deriving DecidableEq, Repr

/-- One entry of the list built by `process_transaction_batch`
(src/app.py lines 225-304). -/
structure BatchResult where
  transaction_name : String
  status : String
  error : Option String
  report : Option Report
  email_sent : Bool
deriving DecidableEq, Repr

/-- The body of the `for` loop of `process_transaction_batch`
(src/app.py lines 245-298) for one folder. `runRateAnalysis` stands for
the external `run_rate_analysis` call, a raised exception modelled as
`Except.error` carrying its text; `sendAlert` stands for
`send_reconciliation_alert`, whose boolean result this code path calls
and then discards (lines 280-281). -/
def processBatchOne (runRateAnalysis : Folder → Except String (Option Report))
    (sendAlert : Report → Bool) (folder : Folder) : BatchResult :=
  if !folder.hasSummaryFile then
    { transaction_name := folder.name
      status := "failed"
      error := some "Summary file not found"
      report := none
      email_sent := false }
  else
    match runRateAnalysis folder with
    | Except.error e =>
        { transaction_name := folder.name
          status := "failed"
          error := some e
          report := none
          email_sent := false }
    | Except.ok report =>
        let email_sent :=
          match report with
          | some r =>
            match r.summary with
            | some s =>
                if s.amount_reconciled_percentage < 95 then
                  let _ := sendAlert r
                  true
                else false
            | none => false
          | none => false
        { transaction_name := folder.name
          status := "success"
          error := none
          report := report
          email_sent := email_sent }

/-- `process_transaction_batch` (src/app.py lines 225-304): the loop over
the scanned transaction folders, appending one result per folder. -/
def processTransactionBatch
    (runRateAnalysis : Folder → Except String (Option Report))
    (sendAlert : Report → Bool) : List Folder → List BatchResult
  | [] => []
  | folder :: rest =>
      processBatchOne runRateAnalysis sendAlert folder ::
        processTransactionBatch runRateAnalysis sendAlert rest

/-- The value returned by `process_single_transaction`
(src/app.py lines 860-918): a success record carrying the recorded
`email_sent` boolean, or a failure record carrying the error text. -/
inductive SingleOutcome
  | success (index : Nat) (email_sent : Bool) (transaction_name : String)
  | failed (index : Nat) (error : String) (transaction_name : String)
deriving DecidableEq, Repr

/-- `process_single_transaction` (src/app.py lines 860-918). The success
path stores `email_sent = send_reconciliation_alert(...)` (line 886);
line 899 reads `report['summary']['amount_reconciled_display']` with no
guard, so a missing report or summary raises inside the try block and
the transaction is recorded as failed (exception text abridged). -/
def processSingleTransaction
    (runRateAnalysis : Folder → Except String (Option Report))
    (sendAlert : Report → Bool) (idx : Nat) (txn : Folder) : SingleOutcome :=
  match runRateAnalysis txn with
  | Except.error e => SingleOutcome.failed idx e txn.name
  | Except.ok report =>
      let email_sent :=
        match report with
        | some r =>
          match r.summary with
          | some s =>
              if s.amount_reconciled_percentage < 95 then sendAlert r else false
          | none => false
        | none => false
      match report with
      | some r =>
        match r.summary with
        | some _ => SingleOutcome.success idx email_sent txn.name
        | none => SingleOutcome.failed idx "KeyError: summary" txn.name
      | none => SingleOutcome.failed idx "TypeError: report is None" txn.name

/-- C5: an exception from reconciling one transaction is caught and
recorded as that transaction's own failed result with its error message,
and the siblings before and after it in the batch are processed exactly
as they would be on their own. -/
theorem batch_failure_isolated
    (runRateAnalysis : Folder → Except String (Option Report))
    (sendAlert : Report → Bool)
    (before after : List Folder) (folder : Folder) (e : String)
    (hsum : folder.hasSummaryFile = true)
    (herr : runRateAnalysis folder = Except.error e) :
    processTransactionBatch runRateAnalysis sendAlert (before ++ folder :: after) =
      processTransactionBatch runRateAnalysis sendAlert before ++
        ({ transaction_name := folder.name, status := "failed",
           error := some e, report := none, email_sent := false } : BatchResult) ::
        processTransactionBatch runRateAnalysis sendAlert after := by
  induction before with
  | nil => simp [processTransactionBatch, processBatchOne, hsum, herr]
  | cons f fs ih => simp [processTransactionBatch, ih]

/-- Witness for C5: a concrete three-folder batch whose middle
transaction raises. -/
theorem batch_failure_isolated_witness :
    processTransactionBatch (fun _ => Except.error "boom") (fun _ => false)
        ([⟨"T0", false⟩] ++ (⟨"T1", true⟩ : Folder) :: [⟨"T2", false⟩]) =
      processTransactionBatch (fun _ => Except.error "boom") (fun _ => false)
          [⟨"T0", false⟩] ++
        ({ transaction_name := "T1", status := "failed", error := some "boom",
           report := none, email_sent := false } : BatchResult) ::
        processTransactionBatch (fun _ => Except.error "boom") (fun _ => false)
          [⟨"T2", false⟩] :=
  batch_failure_isolated (fun _ => Except.error "boom") (fun _ => false)
    [⟨"T0", false⟩] [⟨"T2", false⟩] ⟨"T1", true⟩ "boom" rfl rfl

/-- C6: a transaction whose calculated-fee (summary) source is entirely
absent fails as a whole with status "failed", the human-readable reason
"Summary file not found" and no report at all; a transaction whose
analysis yields a report — however many warnings it carries — instead
gets status "success" with the report attached, and the two statuses are
distinct strings. -/
theorem missing_summary_fatal
    (runRateAnalysis : Folder → Except String (Option Report))
    (sendAlert : Report → Bool) (folder degraded : Folder) (r : Report)
    (hnone : folder.hasSummaryFile = false)
    (hsum : degraded.hasSummaryFile = true)
    (hok : runRateAnalysis degraded = Except.ok (some r)) :
    processBatchOne runRateAnalysis sendAlert folder =
      { transaction_name := folder.name, status := "failed",
        error := some "Summary file not found", report := none,
        email_sent := false } ∧
    (processBatchOne runRateAnalysis sendAlert degraded).status = "success" ∧
    (processBatchOne runRateAnalysis sendAlert degraded).report = some r ∧
    ("failed" : String) ≠ "success" := by
  refine ⟨by simp [processBatchOne, hnone], ?_, ?_, by decide⟩
  · simp [processBatchOne, hsum, hok]
  · simp [processBatchOne, hsum, hok]

/-- Witness for C6: a folder with no summary workbook next to a degraded
but successful transaction carrying a warning. -/
theorem missing_summary_fatal_witness :
    processBatchOne
        (fun _ => Except.ok (some ⟨some ⟨99, "99.00%"⟩, ["bad cell"]⟩))
        (fun _ => false) ⟨"T", false⟩ =
      { transaction_name := "T", status := "failed",
        error := some "Summary file not found", report := none,
        email_sent := false } ∧
    (processBatchOne
        (fun _ => Except.ok (some ⟨some ⟨99, "99.00%"⟩, ["bad cell"]⟩))
        (fun _ => false) ⟨"D", true⟩).status = "success" ∧
    (processBatchOne
        (fun _ => Except.ok (some ⟨some ⟨99, "99.00%"⟩, ["bad cell"]⟩))
        (fun _ => false) ⟨"D", true⟩).report =
      some ⟨some ⟨99, "99.00%"⟩, ["bad cell"]⟩ ∧
    ("failed" : String) ≠ "success" :=
  missing_summary_fatal
    (fun _ => Except.ok (some ⟨some ⟨99, "99.00%"⟩, ["bad cell"]⟩))
    (fun _ => false) ⟨"T", false⟩ ⟨"D", true⟩
    ⟨some ⟨99, "99.00%"⟩, ["bad cell"]⟩ rfl rfl rfl

/-- C8: for a successfully reconciled transaction whose summary is below
95%, `process_transaction_batch` records `email_sent = True` regardless
of what `send_reconciliation_alert` returned, while
`process_single_transaction` records the alert's actual boolean
result. -/
theorem batch_email_sent_unconditional
    (runRateAnalysis : Folder → Except String (Option Report))
    (sendAlert : Report → Bool) (folder : Folder) (idx : Nat)
    (r : Report) (s : Summary)
    (hsum : folder.hasSummaryFile = true)
    (hok : runRateAnalysis folder = Except.ok (some r))
    (hs : r.summary = some s)
    (hlow : s.amount_reconciled_percentage < 95) :
    (processBatchOne runRateAnalysis sendAlert folder).email_sent = true ∧
    processSingleTransaction runRateAnalysis sendAlert idx folder =
      SingleOutcome.success idx (sendAlert r) folder.name := by
  constructor
  · simp [processBatchOne, hsum, hok, hs, hlow]
  · simp [processSingleTransaction, hok, hs, hlow]

/-- Witness for C8: an alert collaborator that returns False (alerting
disabled or SMTP failed); the batch path still records True, the single
path records False. -/
theorem batch_email_sent_unconditional_witness :
    (processBatchOne (fun _ => Except.ok (some ⟨some ⟨94, "94.00%"⟩, []⟩))
        (fun _ => false) ⟨"T", true⟩).email_sent = true ∧
    processSingleTransaction (fun _ => Except.ok (some ⟨some ⟨94, "94.00%"⟩, []⟩))
        (fun _ => false) 0 ⟨"T", true⟩ =
      SingleOutcome.success 0 false "T" :=
  batch_email_sent_unconditional
    (fun _ => Except.ok (some ⟨some ⟨94, "94.00%"⟩, []⟩)) (fun _ => false)
    ⟨"T", true⟩ 0 ⟨some ⟨94, "94.00%"⟩, []⟩ ⟨94, "94.00%"⟩
    rfl rfl rfl (by norm_num)

/-- C10: `send_reconciliation_alert` yields a boolean on every input: it
returns True exactly when alerting is enabled, the report read yields a
percentage strictly below 95, and the SMTP send succeeds; it returns
False when alerting is disabled, when the percentage is at least 95,
when reading the report raises, or when the send raises. -/
theorem sendAlert_total_never_raises
    (enabled : Bool) (lookupAmount : Except String ℚ)
    (smtpSend : Except String Unit) :
    (sendReconciliationAlert enabled lookupAmount smtpSend = true ↔
      (enabled = true ∧
        (∃ amount, lookupAmount = Except.ok amount ∧ amount < 95) ∧
        smtpSend = Except.ok ())) ∧
    (enabled = false →
      sendReconciliationAlert enabled lookupAmount smtpSend = false) ∧
    (∀ e, lookupAmount = Except.error e →
      sendReconciliationAlert enabled lookupAmount smtpSend = false) ∧
    (∀ amount, lookupAmount = Except.ok amount → 95 ≤ amount →
      sendReconciliationAlert enabled lookupAmount smtpSend = false) ∧
    (∀ e, smtpSend = Except.error e →
      sendReconciliationAlert enabled lookupAmount smtpSend = false) := by
  cases enabled with
  | false => simp [sendReconciliationAlert]
  | true =>
    cases lookupAmount with
    | error e => simp [sendReconciliationAlert]
    | ok amount =>
      cases smtpSend with
      | error e =>
          by_cases h : 95 ≤ amount <;>
            simp [sendReconciliationAlert, h]
      | ok u =>
          cases u
          by_cases h : 95 ≤ amount
          · simp [sendReconciliationAlert, h, not_lt.mpr h]
          · simp [sendReconciliationAlert, h, lt_of_not_le h]

/-- Witness for C10: alerting disabled yields False. -/
theorem sendAlert_total_never_raises_witness :
    sendReconciliationAlert false (Except.ok 50) (Except.ok ()) = false :=
  (sendAlert_total_never_raises false (Except.ok 50) (Except.ok ())).2.1 rfl

/-! ## Root cause analysis (src/root_cause_analysis.py)

The analyzer reads the report dictionary defensively, every access going
through `.get` with a default; the structures below mirror that with
optional fields.
-/

/-- The summary section as read by `_build_analysis_prompt` and
`analyze_reconciliation_discrepancies`: every field optional, read with
a `.get` default. -/
structure RSummary where
  amount_reconciled_percentage : Option ℚ
  amount_reconciled_display : Option String
  fee_reconciled_display : Option String
  matched_items : Option Nat
  total_visa_items : Option Nat
  total_final_amount_display : Option String
  total_visa_amount_display : Option String
deriving DecidableEq, Repr

/-- One sheet row as read by `_extract_discrepancies`
(src/root_cause_analysis.py lines 244-251). -/
structure RRow where
  fee_type : Option String
  percentage_diff : Option ℚ
  diff_status : Option String
  calculated_amount_display : Option String
  visa_amount_display : Option String
  final_amount_display : Option String
  calculation_method : Option String
  percentage_diff_display : Option String
deriving DecidableEq, Repr

/-- One sheet: `sheet.get("rows", [])`. -/
structure RSheet where
  rows : List RRow
deriving DecidableEq, Repr

/-- The report as read by the analyzer: `report.get("summary", {})` and
`report.get("sheets", [])`. -/
structure RReport where
  summary : Option RSummary
  sheets : List RSheet
deriving DecidableEq, Repr

/-- The empty dictionary used as the `.get("summary", {})` default. -/
def emptyRSummary : RSummary := ⟨none, none, none, none, none, none, none⟩

/-- One entry of the discrepancy list built by `_extract_discrepancies`
(src/root_cause_analysis.py lines 255-263); `calculated_value` is the
row's `final_amount_display` and `visa_value` its
`visa_amount_display`. -/
structure Discrepancy where
  fee_type : String
  percentage_diff : Option ℚ
  diff_status : String
  calculated_value : String
  visa_value : String
  calculation_method : String
  percentage_diff_display : String
deriving DecidableEq, Repr

/-- The filter of `_extract_discrepancies`
(src/root_cause_analysis.py line 254): keep the row only when its
`diff_status` is higher, lower or missing. -/
def isDiscRow (row : RRow) : Bool :=
  row.diff_status.getD "" == "higher" || row.diff_status.getD "" == "lower" ||
    row.diff_status.getD "" == "missing"

/-- The per-row projection of `_extract_discrepancies`
(src/root_cause_analysis.py lines 255-263). -/
def discOfRow (row : RRow) : Discrepancy :=
  { fee_type := row.fee_type.getD "Unknown"
    percentage_diff := row.percentage_diff
    diff_status := row.diff_status.getD ""
    calculated_value := row.final_amount_display.getD "N/A"
    visa_value := row.visa_amount_display.getD "N/A"
    calculation_method := row.calculation_method.getD "N/A"
    percentage_diff_display := row.percentage_diff_display.getD "N/A" }

/-- The loop body of `_extract_discrepancies` for one row: append the
projected entry exactly when the row passes the status filter. -/
def rowDiscrepancy (row : RRow) : Option Discrepancy :=
  if isDiscRow row then some (discOfRow row) else none

/-- `_extract_discrepancies` (src/root_cause_analysis.py lines 227-265):
iterate the sheets, then their rows, in order, collecting discrepancy
entries. -/
def extractDiscrepancies (report : RReport) : List Discrepancy :=
  (report.sheets.flatMap (fun sheet => sheet.rows)).filterMap rowDiscrepancy

/-- The rows of a report whose `diff_status` is higher, lower or missing,
in the same sheet-then-row traversal order the analyzer uses. -/
def nonMatchedRows (report : RReport) : List RRow :=
  (report.sheets.flatMap (fun sheet => sheet.rows)).filter isDiscRow

/-- The fixed header of the analysis prompt with the summary fields
interpolated (src/root_cause_analysis.py lines 280-290). -/
def promptHeader (summary : RSummary) : String :=
  let amount_reconciled := summary.amount_reconciled_display.getD "N/A"
  let fee_reconciled := summary.fee_reconciled_display.getD "N/A"
  let matched_items := toString (summary.matched_items.getD 0)
  let total_visa_items := toString (summary.total_visa_items.getD 0)
  let total_final := summary.total_final_amount_display.getD "N/A"
  let total_visa := summary.total_visa_amount_display.getD "N/A"
  "You are a financial reconciliation expert. Analyze the following reconciliation discrepancies and provide a root cause analysis.\n\nRECONCILIATION SUMMARY:\n- Amount Reconciled: "
    ++ amount_reconciled ++ "\n- Fee Reconciled: " ++ fee_reconciled
    ++ "\n- Items Reconciled: " ++ matched_items ++ "/" ++ total_visa_items
    ++ "\n- Calculated Total: " ++ total_final
    ++ "\n- VISA Invoice Total: " ++ total_visa
    ++ "\n\nIDENTIFIED DISCREPANCIES:\n"

/-- One enumerated discrepancy block of the prompt
(src/root_cause_analysis.py lines 292-300). -/
def discrepancyBlock (i : Nat) (disc : Discrepancy) : String :=
  "\n" ++ toString i ++ ". " ++ disc.fee_type
    ++ "\n   - Calculated Value: " ++ disc.calculated_value
    ++ "\n   - VISA Invoice Value: " ++ disc.visa_value
    ++ "\n   - Difference: " ++ disc.percentage_diff_display
    ++ "\n   - Status: " ++ disc.diff_status
    ++ "\n   - Calculation Method: " ++ disc.calculation_method ++ "\n"

/-- The fixed closing instructions of the prompt
(src/root_cause_analysis.py lines 302-349). -/
def promptTask : String :=
  "\nTASK:\nProvide a detailed, fee-specific root cause analysis of why these discrepancies exist.\n"
    ++ "\nFORMATTING REQUIREMENTS:\n- Use clear structure with numbered sections and subsections\n- Use bullet points (•) for listing causes\n- Keep each point concise and specific\n- Use proper paragraph breaks between sections\n- Reference exact fee names and percentages from the data\n"
    ++ "\nANALYSIS STRUCTURE:\n\nPART 1: FEE-BY-FEE ANALYSIS\nFor EACH fee type listed above with a discrepancy, provide:\n- Fee name with variance percentage in parentheses (e.g., \"Integrity Fee variance (+56.9%)\")\n- Brief description of the discrepancy (calculated vs VISA)\n- \"Possible causes:\" followed by bullet points with specific root causes\n"
    ++ "\nExample format for each fee:\nFee Name variance (+X.X%)\nBrief description.\nPossible causes:\n• Specific cause related to this fee (e.g., tier application, rate mismatch)\n• Data quality issue specific to this fee\n• FX conversion or timing issue if applicable\n"
    ++ "\nPART 2: MISSING FEES ANALYSIS\nIf there are fees showing \"Missing\" status:\n- List which fees are missing\n- Explain what \"Missing Calculations\" means\n- Connect to reconciliation metrics (Item Reconciled, Match %)\n"
    ++ "\nPART 3: OVERALL PATTERNS\nIdentify cross-cutting issues:\n• Systematic problems affecting multiple fees\n• Common root causes across fee types\n• Data quality patterns\n"
    ++ "\nIMPORTANT RULES:\n- Provide ONLY analysis, NO recommendations or action items\n- Be VERY specific - reference actual amounts, rates, and percentages\n- For each fee, identify the MOST PROBABLE specific root cause\n- Focus on technical/operational causes (formulas, data, rates, mapping)\n- Keep total length 400-600 words\n- Use technical terminology appropriately (FX conversion, tier application, fee mapping, etc.)\n"
    ++ "\nROOT CAUSE ANALYSIS:"

/-- `_build_analysis_prompt` (src/root_cause_analysis.py lines 267-351):
the prompt is assembled from the report's summary section and the
discrepancy list alone, each discrepancy enumerated from 1. -/
def buildAnalysisPrompt (report : RReport)
    (discrepancies : List Discrepancy) : String :=
  promptHeader (report.summary.getD emptyRSummary)
    ++ String.join
        (discrepancies.enum.map (fun p => discrepancyBlock (p.1 + 1) p.2))
    ++ promptTask

/-- `analyze_reconciliation_discrepancies`
(src/root_cause_analysis.py lines 75-111), instrumented with the list of
prompts sent to the OpenAI API: `available` is
`check_openai_availability()`, `generate` the chat-completion call
inside `generate_analysis` (API exceptions and empty responses yield
`none`), and `formatHtml` the post-formatting `_format_analysis_html`,
applied only to a non-empty analysis. -/
def analyzeReconciliationDiscrepancies (available : Bool)
    (generate : String → Option String) (formatHtml : String → String)
    (report : RReport) : Option String × List String :=
  let amount_reconciled :=
    ((report.summary.getD emptyRSummary).amount_reconciled_percentage).getD 100
  if 95 ≤ amount_reconciled then
    (none, [])
  else if !available then
    (some "❌ Root Cause Analysis unavailable: OpenAI API key is not configured. Please set the OPENAI_API_KEY environment variable.",
      [])
  else
    let discrepancies := extractDiscrepancies report
    if discrepancies.isEmpty then
      (some "No significant discrepancies found to analyze.", [])
    else
      let prompt := buildAnalysisPrompt report discrepancies
      match generate prompt with
      | some analysis =>
          if analysis.isEmpty then (some analysis, [prompt])
          else (some (formatHtml analysis), [prompt])
      | none => (none, [prompt])

/-- Extracting discrepancies is filtering to the non-matched rows and
projecting each of them. -/
lemma filterMap_rowDiscrepancy (l : List RRow) :
    l.filterMap rowDiscrepancy = (l.filter isDiscRow).map discOfRow := by
  induction l with
  | nil => rfl
  | cons row rest ih =>
      by_cases h : isDiscRow row = true
      · simp [List.filterMap_cons, List.filter_cons, rowDiscrepancy, h, ih]
      · simp [List.filterMap_cons, List.filter_cons, rowDiscrepancy, h, ih]

/-- C7: the analysis prompt is a function only of the report's summary
and of the rows whose `diff_status` is higher, lower or missing — two
reports agreeing on those, however much their matched rows differ,
produce the identical prompt, and no raw input file is consulted. -/
theorem prompt_depends_only_on_summary_and_discrepancies
    (r1 r2 : RReport) (hs : r1.summary = r2.summary)
    (hrows : nonMatchedRows r1 = nonMatchedRows r2) :
    buildAnalysisPrompt r1 (extractDiscrepancies r1) =
      buildAnalysisPrompt r2 (extractDiscrepancies r2) := by
  have hd : extractDiscrepancies r1 = extractDiscrepancies r2 := by
    unfold extractDiscrepancies
    rw [filterMap_rowDiscrepancy, filterMap_rowDiscrepancy]
    unfold nonMatchedRows at hrows
    rw [hrows]
  unfold buildAnalysisPrompt
  rw [hs, hd]

/-- Witness for C7: two reports with the same summary and the same
`higher` row but different `matched` rows yield the same prompt. -/
theorem prompt_depends_only_witness :
    buildAnalysisPrompt
        (⟨some ⟨some 90, some "90.00%", none, some 1, some 2, none, none⟩,
          [⟨[⟨some "Integrity Fee", some 2, some "higher", none, some "100",
              some "102", some "flat", some "+2.00%"⟩,
             ⟨some "Service Fee", some 0, some "matched", none, none, none,
              none, none⟩]⟩]⟩ : RReport)
        (extractDiscrepancies
          ⟨some ⟨some 90, some "90.00%", none, some 1, some 2, none, none⟩,
          [⟨[⟨some "Integrity Fee", some 2, some "higher", none, some "100",
              some "102", some "flat", some "+2.00%"⟩,
             ⟨some "Service Fee", some 0, some "matched", none, none, none,
              none, none⟩]⟩]⟩) =
      buildAnalysisPrompt
        (⟨some ⟨some 90, some "90.00%", none, some 1, some 2, none, none⟩,
          [⟨[⟨some "Integrity Fee", some 2, some "higher", none, some "100",
              some "102", some "flat", some "+2.00%"⟩,
             ⟨some "Card Fee", some 1, some "matched", none, none, none,
              none, none⟩]⟩]⟩ : RReport)
        (extractDiscrepancies
          ⟨some ⟨some 90, some "90.00%", none, some 1, some 2, none, none⟩,
          [⟨[⟨some "Integrity Fee", some 2, some "higher", none, some "100",
              some "102", some "flat", some "+2.00%"⟩,
             ⟨some "Card Fee", some 1, some "matched", none, none, none,
              none, none⟩]⟩]⟩) :=
  prompt_depends_only_on_summary_and_discrepancies _ _ rfl (by decide)

/-- C9: `analyze_reconciliation_discrepancies` returns None and sends no
API request whenever the (defaulted) percentage is at least 95; a report
with no summary section defaults to 100 and therefore also yields None
with no API call. -/
theorem analyze_skips_at_or_above_95 (available : Bool)
    (generate : String → Option String) (formatHtml : String → String)
    (report : RReport) :
    (95 ≤ ((report.summary.getD emptyRSummary).amount_reconciled_percentage).getD 100 →
      analyzeReconciliationDiscrepancies available generate formatHtml report =
        (none, [])) ∧
    (report.summary = none →
      analyzeReconciliationDiscrepancies available generate formatHtml report =
        (none, [])) := by
  constructor
  · intro h
    simp [analyzeReconciliationDiscrepancies, h]
  · intro h
    norm_num [analyzeReconciliationDiscrepancies, h, emptyRSummary]

/-- Witness for C9: a report with no summary yields no analysis and no
API call. -/
theorem analyze_skips_witness :
    analyzeReconciliationDiscrepancies true (fun _ => none)
        (fun s => s) ⟨none, []⟩ = (none, []) :=
  (analyze_skips_at_or_above_95 true (fun _ => none) (fun s => s)
    ⟨none, []⟩).2 rfl

end CardReco
